import Mathlib

/-!
Shallow embedding of the `privatepoker` Anchor program
(src/programs/privatepoker/src/lib.rs) for verification of its
natural-language specification.

Embedding conventions:
- `u64`/`u8` machine integers are modelled as `Nat`; the only place the
  source performs a narrowing cast (`as u64` in `claim_bet_winnings`) is
  modelled with an explicit `% 2 ^ 64`.  Rust `saturating_sub` coincides
  with truncated `Nat` subtraction.
- Solana public keys are opaque; they are modelled as `Nat`.
- Each instruction handler becomes a pure function from the account state
  it reads to a `TxResult` of the account state it writes.  A failing
  `require!` becomes `TxResult.err`, which on-chain aborts the whole
  transaction, so an error result means no state or balance changes.
- A Rust `unwrap` of `None` (or a `checked_div` by zero) aborts the
  program without a typed error; this is modelled by `TxResult.panicked`.
- Lamport transfers out of a PDA are surfaced as explicit payout amounts
  in the result, since the lamport ledger itself is external to the
  program logic.
-/

namespace Privatepoker

/-- Opaque Solana account address. -/
abbrev Pubkey := Nat

/-- The `GameError` enum of the source, one constructor per `#[error_code]` variant. -/
inductive GameErrorKind where
  | CannotJoinOwnGame
  | GameFull
  | InvalidPhase
  | NotInGame
  | NotYourTurn
  | AlreadyFolded
  | MustCallOrRaise
  | RaiseTooSmall
  | BettingClosed
  | InvalidPlayer
  | BetTooSmall
  | AlreadySettled
  | NotSettled
  | AlreadyClaimed
  | LostBet
  | MissingOpponent
  deriving DecidableEq

/-- Result of one instruction: success with the written state, a typed
`require!` failure, or an abort from an `unwrap` of an absent value. -/
inductive TxResult (α : Type) where
  | ok : α → TxResult α
  | err : GameErrorKind → TxResult α
  | panicked : TxResult α
  deriving DecidableEq

/-- The `GamePhase` enum of the source. -/
inductive GamePhase where
  | WaitingForPlayer
  | PreFlop
  | Flop
  | Turn
  | River
  | Showdown
  | Settled
  deriving DecidableEq

/-- The `GameResult` enum of the source. -/
inductive GameResult where
  | Winner : Pubkey → GameResult
  | Tie
  | NoWinner
  deriving DecidableEq

/-- The `Action` enum of the source. -/
inductive Action where
  | Fold
  | Check
  | Call
  | Raise : Nat → Action
  | AllIn
  deriving DecidableEq

/-- The `Game` account of the source. -/
structure Game where
  game_id : Nat
  player1 : Option Pubkey
  player2 : Option Pubkey
  buy_in : Nat
  pot : Nat
  phase : GamePhase
  community_cards : List Nat
  community_card_count : Nat
  current_bet : Nat
  dealer : Nat
  turn : Nat
  winner : GameResult
  deck_seed : Nat
  deriving DecidableEq

/-- The `PlayerHand` account of the source. -/
structure PlayerHand where
  game_id : Nat
  player : Pubkey
  cards : List Nat
  has_folded : Bool
  current_bet : Nat
  total_bet : Nat
  is_all_in : Bool
  deriving DecidableEq

/-- The `BettingPool` account of the source. -/
structure BettingPool where
  game_id : Nat
  total_pool_player1 : Nat
  total_pool_player2 : Nat
  total_bettors : Nat
  is_settled : Bool
  winning_player : Nat
  deriving DecidableEq

/-- The `Bet` account of the source. -/
structure Bet where
  game_id : Nat
  bettor : Pubkey
  bet_on_player : Nat
  amount : Nat
  is_claimed : Bool
  deriving DecidableEq

/-- Handler `create_game`: initializes the `Game` account and the `PlayerHand` of player 1; the buy-in deposit is recorded in `pot` and `total_bet`. -/
def create_game (game_id buy_in : Nat) (player1 : Pubkey) : Game × PlayerHand :=
  ({ game_id := game_id
     player1 := some player1
     player2 := none
     buy_in := buy_in
     pot := buy_in
     phase := GamePhase.WaitingForPlayer
     community_cards := List.replicate 5 0
     community_card_count := 0
     current_bet := 0
     dealer := 0
     turn := 1
     winner := GameResult.NoWinner
     deck_seed := game_id },
   { game_id := game_id
     player := player1
     cards := List.replicate 2 0
     has_folded := false
     current_bet := 0
     total_bet := buy_in
     is_all_in := false })

/-- Handler `join_game`: player 2 joins, deposits the buy-in, phase moves
to `PreFlop`.  Note the handler does not write `game.turn`. -/
def join_game (g : Game) (player : Pubkey) : TxResult (Game × PlayerHand) :=
  if g.player1 = some player then .err .CannotJoinOwnGame
  else if g.player2.isSome then .err .GameFull
  else if g.phase ≠ GamePhase.WaitingForPlayer then .err .InvalidPhase
  else
    .ok ({ g with player2 := some player, pot := g.pot + g.buy_in, phase := GamePhase.PreFlop },
         { game_id := g.game_id
           player := player
           cards := List.replicate 2 0
           has_folded := false
           current_bet := 0
           total_bet := g.buy_in
           is_all_in := false })

/-- The `is_player1` / `is_player2` / `player_num` computation at the top
of handler `player_action`. -/
def player_num_of (g : Game) (player : Pubkey) : Option Nat :=
  if g.player1 = some player then some 1
  else if g.player2 = some player then some 2
  else none

/-- Handler `player_action`: turn-gated Fold / Check / Call / Raise /
AllIn.  The handler performs no phase check; a Fold with the opponent
absent reaches `unwrap` of `None` and aborts. -/
def player_action (g : Game) (h : PlayerHand) (player : Pubkey) (action : Action) :
    TxResult (Game × PlayerHand) :=
  match player_num_of g player with
  | none => .err .NotInGame
  | some player_num =>
    if g.turn ≠ player_num then .err .NotYourTurn
    else if h.has_folded then .err .AlreadyFolded
    else
      match action with
      | .Fold =>
        match (if player_num = 1 then g.player2 else g.player1) with
        | some other =>
          .ok ({ g with winner := GameResult.Winner other, phase := GamePhase.Showdown },
               { h with has_folded := true })
        | none => .panicked
      | .Check =>
        if g.current_bet ≠ h.current_bet then .err .MustCallOrRaise
        else .ok ({ g with turn := if player_num = 1 then 2 else 1 }, h)
      | .Call =>
        let call_amount := g.current_bet - h.current_bet
        .ok ({ g with pot := g.pot + call_amount, turn := if player_num = 1 then 2 else 1 },
             { h with current_bet := g.current_bet, total_bet := h.total_bet + call_amount })
      | .Raise amount =>
        if ¬ amount > g.current_bet then .err .RaiseTooSmall
        else
          let raise_diff := amount - h.current_bet
          .ok ({ g with current_bet := amount, pot := g.pot + raise_diff,
                        turn := if player_num = 1 then 2 else 1 },
               { h with current_bet := amount, total_bet := h.total_bet + raise_diff })
      | .AllIn =>
        .ok ({ g with pot := g.buy_in * 2, turn := if player_num = 1 then 2 else 1 },
             { h with is_all_in := true, current_bet := g.current_bet,
                      total_bet := h.total_bet + (g.buy_in - h.total_bet) })

/-- Handler `advance_phase`: advances one betting round, reveals community
cards, resets the table bet, and gives the turn to the non-dealer. -/
def advance_phase (g : Game) : TxResult Game :=
  match g.phase with
  | GamePhase.PreFlop =>
    .ok { g with phase := GamePhase.Flop, community_card_count := 3,
                 current_bet := 0, turn := if g.dealer = 0 then 2 else 1 }
  | GamePhase.Flop =>
    .ok { g with phase := GamePhase.Turn, community_card_count := 4,
                 current_bet := 0, turn := if g.dealer = 0 then 2 else 1 }
  | GamePhase.Turn =>
    .ok { g with phase := GamePhase.River, community_card_count := 5,
                 current_bet := 0, turn := if g.dealer = 0 then 2 else 1 }
  | GamePhase.River =>
    .ok { g with phase := GamePhase.Showdown,
                 current_bet := 0, turn := if g.dealer = 0 then 2 else 1 }
  | _ => .err .InvalidPhase

/-- Handler `reveal_winner`: maps the winner index to an outcome and marks
the game `Settled`; it does not touch `pot`. -/
def reveal_winner (g : Game) (winner_index : Nat) : TxResult Game :=
  if g.phase ≠ GamePhase.Showdown then .err .InvalidPhase
  else if winner_index = 0 then
    match g.player1 with
    | some p => .ok { g with winner := GameResult.Winner p, phase := GamePhase.Settled }
    | none => .panicked
  else if winner_index = 1 then
    match g.player2 with
    | some p => .ok { g with winner := GameResult.Winner p, phase := GamePhase.Settled }
    | none => .panicked
  else
    .ok { g with winner := GameResult.Tie, phase := GamePhase.Settled }

/-- Handler `settle_pot`: pays the recorded pot to the stored winner,
zeroing the pot before the transfer; the paid amount is returned. -/
def settle_pot (g : Game) (winner_key : Pubkey) : TxResult (Game × Nat) :=
  if g.phase ≠ GamePhase.Settled then .err .InvalidPhase
  else if ¬ g.pot > 0 then .err .AlreadyClaimed
  else
    match g.winner with
    | GameResult.Winner w =>
      if w = winner_key then .ok ({ g with pot := 0 }, g.pot)
      else .err .InvalidPlayer
    | _ => .err .InvalidPlayer

/-- Handler `settle_game`: one-shot settlement; returns the new game state,
the amount paid to the winner and the amount refunded to the loser. -/
def settle_game (g : Game) (winner_index : Nat) (actual_pot : Nat)
    (winner_key loser_key : Pubkey) : TxResult (Game × Nat × Nat) :=
  if g.phase = GamePhase.Settled then .err .AlreadySettled
  else
    match g.player1, g.player2 with
    | some player1, some player2 =>
      match (if winner_index = 0 then some (player1, player2)
             else if winner_index = 1 then some (player2, player1)
             else none) with
      | none => .err .InvalidPlayer
      | some (winner_pubkey, loser_pubkey) =>
        if winner_key ≠ winner_pubkey then .err .InvalidPlayer
        else if loser_key ≠ loser_pubkey then .err .InvalidPlayer
        else
          let total_in_pda := g.pot
          let capped_pot :=
            if actual_pot > 0 ∧ actual_pot ≤ total_in_pda then actual_pot else total_in_pda
          let loser_refund := total_in_pda - capped_pot
          .ok ({ g with winner := GameResult.Winner winner_pubkey,
                        phase := GamePhase.Settled, pot := 0 },
               capped_pot, loser_refund)
    | _, _ => .err .MissingOpponent

/-- Handler `cancel_game`: refunds player 1 before an opponent joined and
marks the game `Settled` with a zero pot. -/
def cancel_game (g : Game) (player1_key : Pubkey) : TxResult (Game × Nat) :=
  if g.phase ≠ GamePhase.WaitingForPlayer then .err .InvalidPhase
  else if g.player1 ≠ some player1_key then .err .NotInGame
  else .ok ({ g with pot := 0, phase := GamePhase.Settled }, g.pot)

/-- Handler `create_betting_pool`. -/
def create_betting_pool (game_id : Nat) : BettingPool :=
  { game_id := game_id
    total_pool_player1 := 0
    total_pool_player2 := 0
    total_bettors := 0
    is_settled := false
    winning_player := 0 }

/-- Handler `place_bet`: validates, records the bet, and accumulates the
aggregate pool of the chosen side and the bettor counter. -/
def place_bet (pool : BettingPool) (game_id : Nat) (bettor : Pubkey)
    (bet_on_player amount : Nat) : TxResult (BettingPool × Bet) :=
  if pool.is_settled then .err .BettingClosed
  else if ¬ (bet_on_player = 1 ∨ bet_on_player = 2) then .err .InvalidPlayer
  else if ¬ amount > 0 then .err .BetTooSmall
  else
    let bet : Bet :=
      { game_id := game_id, bettor := bettor, bet_on_player := bet_on_player,
        amount := amount, is_claimed := false }
    if bet_on_player = 1 then
      .ok ({ pool with total_pool_player1 := pool.total_pool_player1 + amount,
                       total_bettors := pool.total_bettors + 1 }, bet)
    else
      .ok ({ pool with total_pool_player2 := pool.total_pool_player2 + amount,
                       total_bettors := pool.total_bettors + 1 }, bet)

/-- Handler `settle_betting_pool`: records the winning-player byte with no
validation of its value. -/
def settle_betting_pool (pool : BettingPool) (winning_player : Nat) : TxResult BettingPool :=
  if pool.is_settled then .err .AlreadySettled
  else .ok { pool with is_settled := true, winning_player := winning_player }

/-- The combined pool a claim is paid from: `total_pool_player1 + total_pool_player2`. -/
def total_pool_of (pool : BettingPool) : Nat :=
  pool.total_pool_player1 + pool.total_pool_player2

/-- The side aggregate the payout is divided by. -/
def winning_pool_of (pool : BettingPool) : Nat :=
  if pool.winning_player = 1 then pool.total_pool_player1 else pool.total_pool_player2

/-- The payout expression of `claim_bet_winnings`: a u128 product of two
u64 values (which cannot overflow, so a plain product), a truncating
division, and the final `as u64` narrowing modelled as `% 2 ^ 64`. -/
def bet_payout (pool : BettingPool) (amount : Nat) : Nat :=
  amount * total_pool_of pool / winning_pool_of pool % 2 ^ 64

/-- Handler `claim_bet_winnings`: pays the proportional share of the
total pool; the `checked_div(...).unwrap()` aborts when the winning-side
pool is zero. -/
def claim_bet_winnings (pool : BettingPool) (bet : Bet) : TxResult (Bet × Nat) :=
  if ¬ pool.is_settled then .err .NotSettled
  else if bet.is_claimed then .err .AlreadyClaimed
  else if bet.bet_on_player ≠ pool.winning_player then .err .LostBet
  else if winning_pool_of pool = 0 then .panicked
  else .ok ({ bet with is_claimed := true }, bet_payout pool bet.amount)

/-- Handler `refund_bet`: returns the stake while the pool is unsettled,
marking the bet claimed to block a double refund. -/
def refund_bet (pool : BettingPool) (bet : Bet) : TxResult (Bet × Nat) :=
  if pool.is_settled then .err .BettingClosed
  else if bet.is_claimed then .err .AlreadyClaimed
  else .ok ({ bet with is_claimed := true }, bet.amount)

/-! ### Combined state of one hand
A hand is the `Game` account together with the `PlayerHand` of player 1
and, once joined, of player 2; this is the state the pot-conservation claim
ranges over. -/

/-- The accounts of one hand: the game plus both player hands. -/
structure World where
  game : Game
  hand1 : PlayerHand
  hand2 : Option PlayerHand
  deriving DecidableEq

/-- Cumulative contribution of player 2, zero before joining. -/
def hand2_total (w : World) : Nat :=
  match w.hand2 with
  | some h => h.total_bet
  | none => 0

/-- The world after `create_game`: only player 1 is present. -/
def create_world (game_id buy_in : Nat) (p1 : Pubkey) : World :=
  { game := (create_game game_id buy_in p1).1
    hand1 := (create_game game_id buy_in p1).2
    hand2 := none }

/-- The operations the conservation claim ranges over: join, player
actions, and phase advancement, each submitted by a caller key. -/
inductive Op where
  | join : Pubkey → Op
  | act : Pubkey → Action → Op
  | advance : Op
  deriving DecidableEq

/-- True unless the operation is an `AllIn` player action. -/
def op_no_allin : Op → Bool
  | Op.act _ Action.AllIn => false
  | _ => true

/-- Execute one operation against the accounts of the hand; the transaction
carries the `PlayerHand` account of the acting player. -/
def exec_op (w : World) : Op → TxResult World
  | Op.join p =>
    match join_game w.game p with
    | .ok (g1, h2) => .ok { game := g1, hand1 := w.hand1, hand2 := some h2 }
    | .err e => .err e
    | .panicked => .panicked
  | Op.act p a =>
    if w.game.player1 = some p then
      match player_action w.game w.hand1 p a with
      | .ok (g1, h1) => .ok { game := g1, hand1 := h1, hand2 := w.hand2 }
      | .err e => .err e
      | .panicked => .panicked
    else if w.game.player2 = some p then
      match w.hand2 with
      | none => .panicked
      | some h2 =>
        match player_action w.game h2 p a with
        | .ok (g1, h2a) => .ok { game := g1, hand1 := w.hand1, hand2 := some h2a }
        | .err e => .err e
        | .panicked => .panicked
    else .err .NotInGame
  | Op.advance =>
    match advance_phase w.game with
    | .ok g1 => .ok { game := g1, hand1 := w.hand1, hand2 := w.hand2 }
    | .err e => .err e
    | .panicked => .panicked

/-- Run a list of operations, stopping at the first failure. -/
def run_ops (w : World) : List Op → TxResult World
  | [] => .ok w
  | op :: rest =>
    match exec_op w op with
    | .ok w1 => run_ops w1 rest
    | .err e => .err e
    | .panicked => .panicked

/-! ### Theorems -/

/-- C7: `place_bet` is rejected with `BettingClosed` when the pool is
already settled, with `InvalidPlayer` when the player selector is not 1
or 2, and with `BetTooSmall` when the amount is not positive; a rejected
transaction aborts, so the pool aggregates, bettor count and escrow are
unchanged (an error result carries no written state). -/
theorem place_bet_rejections :
    (∀ (pool : BettingPool) (gid : Nat) (bettor : Pubkey) (bp amt : Nat),
       pool.is_settled = true →
       place_bet pool gid bettor bp amt = TxResult.err GameErrorKind.BettingClosed)
    ∧ (∀ (pool : BettingPool) (gid : Nat) (bettor : Pubkey) (bp amt : Nat),
       pool.is_settled = false → bp ≠ 1 → bp ≠ 2 →
       place_bet pool gid bettor bp amt = TxResult.err GameErrorKind.InvalidPlayer)
    ∧ (∀ (pool : BettingPool) (gid : Nat) (bettor : Pubkey) (bp : Nat),
       pool.is_settled = false → (bp = 1 ∨ bp = 2) →
       place_bet pool gid bettor bp 0 = TxResult.err GameErrorKind.BetTooSmall) := by
  refine ⟨fun pool gid bettor bp amt hs => ?_, fun pool gid bettor bp amt hs h1 h2 => ?_,
          fun pool gid bettor bp hs hbp => ?_⟩
  · simp [place_bet, hs]
  · simp [place_bet, hs, h1, h2]
  · rcases hbp with h | h <;> simp [place_bet, hs, h]

/-- Witness for C7 at a concrete settled pool, selector 3, and amount 0. -/
theorem place_bet_rejections_witness :
    place_bet { game_id := 3, total_pool_player1 := 5, total_pool_player2 := 5,
                total_bettors := 2, is_settled := true, winning_player := 0 } 3 11 1 7
      = TxResult.err GameErrorKind.BettingClosed
    ∧ place_bet (create_betting_pool 3) 3 11 3 7 = TxResult.err GameErrorKind.InvalidPlayer
    ∧ place_bet (create_betting_pool 3) 3 11 1 0 = TxResult.err GameErrorKind.BetTooSmall :=
  ⟨place_bet_rejections.1 _ 3 11 1 7 rfl,
   place_bet_rejections.2.1 _ 3 11 3 7 rfl (by decide) (by decide),
   place_bet_rejections.2.2 _ 3 11 1 rfl (Or.inl rfl)⟩

/-- C8: with both players joined, a Fold by the player whose turn it is
and who has not folded sets the folded flag, makes the opponent the
winner, and moves the phase directly to `Showdown`, for every current
phase and community-card count (the handler checks neither). -/
theorem fold_sets_winner_and_showdown (g : Game) (h : PlayerHand) (p1 p2 : Pubkey)
    (hp1 : g.player1 = some p1) (hp2 : g.player2 = some p2) (hf : h.has_folded = false) :
    (g.turn = 1 →
      player_action g h p1 Action.Fold =
        TxResult.ok ({ g with winner := GameResult.Winner p2, phase := GamePhase.Showdown },
                     { h with has_folded := true }))
    ∧ (g.turn = 2 → p2 ≠ p1 →
      player_action g h p2 Action.Fold =
        TxResult.ok ({ g with winner := GameResult.Winner p1, phase := GamePhase.Showdown },
                     { h with has_folded := true })) := by
  constructor
  · intro ht
    simp [player_action, player_num_of, hp1, hp2, ht, hf]
  · intro ht hne
    have hne2 : p1 ≠ p2 := fun hx => hne hx.symm
    simp [player_action, player_num_of, hp1, hp2, ht, hf, hne2]

/-- Witness for C8: a concrete Flop-phase hand where player 1 folds. -/
theorem fold_sets_winner_and_showdown_witness :
    player_action
      { game_id := 1, player1 := some 10, player2 := some 20, buy_in := 100, pot := 200,
        phase := GamePhase.Flop, community_cards := [0, 0, 0, 0, 0], community_card_count := 3,
        current_bet := 0, dealer := 0, turn := 1, winner := GameResult.NoWinner, deck_seed := 1 }
      { game_id := 1, player := 10, cards := [0, 0], has_folded := false, current_bet := 0,
        total_bet := 100, is_all_in := false } 10 Action.Fold =
      TxResult.ok
        ({ game_id := 1, player1 := some 10, player2 := some 20, buy_in := 100, pot := 200,
           phase := GamePhase.Showdown, community_cards := [0, 0, 0, 0, 0],
           community_card_count := 3, current_bet := 0, dealer := 0, turn := 1,
           winner := GameResult.Winner 20, deck_seed := 1 },
         { game_id := 1, player := 10, cards := [0, 0], has_folded := true, current_bet := 0,
           total_bet := 100, is_all_in := false }) := by
  exact (fold_sets_winner_and_showdown _ _ 10 20 rfl rfl rfl).1 rfl

/-- C9: `player_action` has no phase precondition; with player 2 absent
(as in `WaitingForPlayer` right after `create_game`, whose `turn` is 1),
a Fold by player 1 does not return a typed error but reaches the
`unwrap` of the absent player 2 and aborts. -/
theorem player_action_fold_without_opponent_panics (g : Game) (h : PlayerHand) (p1 : Pubkey)
    (hp1 : g.player1 = some p1) (hp2 : g.player2 = none) (ht : g.turn = 1)
    (hf : h.has_folded = false) :
    player_action g h p1 Action.Fold = TxResult.panicked := by
  simp [player_action, player_num_of, hp1, hp2, ht, hf]

/-- Witness for C9: the state written by `create_game` itself. -/
theorem player_action_fold_without_opponent_panics_witness :
    player_action (create_game 5 100 10).1 (create_game 5 100 10).2 10 Action.Fold
      = TxResult.panicked :=
  player_action_fold_without_opponent_panics _ _ 10 rfl rfl rfl rfl

/-- C10: `settle_betting_pool` records any winning-player byte without
validating it; once a pool is settled with a value outside one and two,
every `claim_bet_winnings` fails (with `LostBet` for an unclaimed bet,
necessarily recorded on player 1 or 2, and `AlreadyClaimed` otherwise)
and every `refund_bet` fails with `BettingClosed`, so no path pays the
escrowed funds of the pool back out. -/
theorem settle_pool_accepts_invalid_winner_locking_funds (pool : BettingPool) (w : Nat)
    (hns : pool.is_settled = false) (hw1 : w ≠ 1) (hw2 : w ≠ 2) :
    settle_betting_pool pool w =
      TxResult.ok { pool with is_settled := true, winning_player := w }
    ∧ (∀ bet : Bet, bet.is_claimed = false → (bet.bet_on_player = 1 ∨ bet.bet_on_player = 2) →
        claim_bet_winnings { pool with is_settled := true, winning_player := w } bet =
          TxResult.err GameErrorKind.LostBet)
    ∧ (∀ bet : Bet, bet.is_claimed = true →
        claim_bet_winnings { pool with is_settled := true, winning_player := w } bet =
          TxResult.err GameErrorKind.AlreadyClaimed)
    ∧ (∀ bet : Bet,
        refund_bet { pool with is_settled := true, winning_player := w } bet =
          TxResult.err GameErrorKind.BettingClosed) := by
  refine ⟨by simp [settle_betting_pool, hns], fun bet hc hbp => ?_, fun bet hc => ?_,
          fun bet => ?_⟩
  · have hne : bet.bet_on_player ≠ w := by
      rcases hbp with h | h <;> rw [h] <;> omega
    simp [claim_bet_winnings, hc, hne]
  · simp [claim_bet_winnings, hc]
  · simp [refund_bet]

/-- Witness for C10: settling a fresh pool with winning player 7 locks a
recorded bet on player 1 out of both the claim and the refund path. -/
theorem settle_pool_accepts_invalid_winner_locking_funds_witness :
    settle_betting_pool (create_betting_pool 3) 7 =
      TxResult.ok { create_betting_pool 3 with is_settled := true, winning_player := 7 }
    ∧ claim_bet_winnings { create_betting_pool 3 with is_settled := true, winning_player := 7 }
        { game_id := 3, bettor := 11, bet_on_player := 1, amount := 50, is_claimed := false } =
        TxResult.err GameErrorKind.LostBet
    ∧ refund_bet { create_betting_pool 3 with is_settled := true, winning_player := 7 }
        { game_id := 3, bettor := 11, bet_on_player := 1, amount := 50, is_claimed := false } =
        TxResult.err GameErrorKind.BettingClosed :=
  ⟨(settle_pool_accepts_invalid_winner_locking_funds _ 7 rfl (by decide) (by decide)).1,
   (settle_pool_accepts_invalid_winner_locking_funds _ 7 rfl (by decide) (by decide)).2.1 _
     rfl (Or.inl rfl),
   (settle_pool_accepts_invalid_winner_locking_funds _ 7 rfl (by decide) (by decide)).2.2.2 _⟩

/-- A concrete Showdown-phase hand with both players present and a pot of
200 lamports, as left by create, join, betting and phase advancement. -/
def showdown_game : Game :=
  { game_id := 1
    player1 := some 10
    player2 := some 20
    buy_in := 100
    pot := 200
    phase := GamePhase.Showdown
    community_cards := [0, 0, 0, 0, 0]
    community_card_count := 5
    current_bet := 0
    dealer := 0
    turn := 1
    winner := GameResult.NoWinner
    deck_seed := 1 }

/-- Observation for the C1 counterexample: the phase and pot written by
`reveal_winner` on `showdown_game`, and whether `settle_pot` then pays. -/
def c1_probe : Option (GamePhase × Nat × Option Nat) :=
  match reveal_winner showdown_game 0 with
  | TxResult.ok g =>
    some (g.phase, g.pot,
      match settle_pot g 10 with
      | TxResult.ok (_, amt) => some amt
      | _ => none)
  | _ => none

/-- C1 counterexample: `reveal_winner` puts `showdown_game` into
`phase = Settled` with the pot still 200, and a further payout attempt
(`settle_pot`) then succeeds and moves 200 lamports — so neither
the zero-pot part nor the no-further-payout part of the claim holds of
every `Settled` state. -/
theorem settled_hand_with_live_pot : c1_probe = some (GamePhase.Settled, 200, some 200) := by
  decide

/-- C1 amended: once the recorded pot is zero with `phase = Settled`
(the state every payout path leaves behind), any further `settle_pot`
fails with `AlreadyClaimed` and any `settle_game` fails with
`AlreadySettled`, changing no state or balances; and a successful
`settle_pot` zeroes the pot before transferring, pays exactly the
recorded pot, and leaves a state on which any further `settle_pot`
fails with `AlreadyClaimed`. -/
theorem settled_zero_pot_blocks_further_payout (g : Game)
    (hphase : g.phase = GamePhase.Settled) :
    (∀ wi ap wk lk, settle_game g wi ap wk lk = TxResult.err GameErrorKind.AlreadySettled)
    ∧ (g.pot = 0 → ∀ wk, settle_pot g wk = TxResult.err GameErrorKind.AlreadyClaimed)
    ∧ (∀ wk g1 payout, settle_pot g wk = TxResult.ok (g1, payout) →
        g1.pot = 0 ∧ g1.phase = GamePhase.Settled ∧ payout = g.pot ∧
        ∀ wk2, settle_pot g1 wk2 = TxResult.err GameErrorKind.AlreadyClaimed) := by
  refine ⟨fun wi ap wk lk => ?_, fun hpot wk => ?_, fun wk g1 payout hok => ?_⟩
  · simp [settle_game, hphase]
  · simp [settle_pot, hphase, hpot]
  · simp only [settle_pot, hphase] at hok
    simp only [ne_eq, not_true_eq_false, if_false, ite_not] at hok
    by_cases hpot : g.pot > 0
    · simp only [hpot, if_true, gt_iff_lt, not_lt] at hok
      rcases hw : g.winner with w | _ | _ <;> simp only [hw] at hok
      · by_cases hwk : w = wk
        · simp only [hwk, if_pos rfl] at hok
          cases hok
          refine ⟨rfl, rfl, rfl, fun wk2 => ?_⟩
          simp [settle_pot]
        · simp [hwk] at hok
      · simp at hok
      · simp at hok
    · simp [hpot] at hok

/-- Witness for C1 at a cancelled hand: `Settled`, pot zero. -/
theorem settled_zero_pot_blocks_further_payout_witness :
    settle_game { showdown_game with phase := GamePhase.Settled, pot := 0 } 0 50 10 20
      = TxResult.err GameErrorKind.AlreadySettled
    ∧ settle_pot { showdown_game with phase := GamePhase.Settled, pot := 0 } 10
      = TxResult.err GameErrorKind.AlreadyClaimed :=
  ⟨(settled_zero_pot_blocks_further_payout _ rfl).1 0 50 10 20,
   (settled_zero_pot_blocks_further_payout _ rfl).2.1 rfl 10⟩

/-- C2: with both players present and the phase not yet `Settled`,
`settle_game` sets the winner, marks `Settled`, zeroes the pot, pays the
winner `min(actualPot, totalEscrowed)` — or the whole escrow when
`actualPot` is zero or exceeds it — and refunds the rest to the loser;
it fails with `AlreadySettled` when already settled, `MissingOpponent`
when a player is absent, and `InvalidPlayer` when the winner index or
the supplied winner or loser account does not match the participants. -/
theorem settle_game_spec :
    (∀ (g : Game) (p1 p2 : Pubkey) (ap : Nat),
       g.player1 = some p1 → g.player2 = some p2 → g.phase ≠ GamePhase.Settled →
       (settle_game g 0 ap p1 p2 =
          TxResult.ok
            ({ g with winner := GameResult.Winner p1, phase := GamePhase.Settled, pot := 0 },
             (if ap = 0 then g.pot else min ap g.pot),
             g.pot - (if ap = 0 then g.pot else min ap g.pot)) ∧
        settle_game g 1 ap p2 p1 =
          TxResult.ok
            ({ g with winner := GameResult.Winner p2, phase := GamePhase.Settled, pot := 0 },
             (if ap = 0 then g.pot else min ap g.pot),
             g.pot - (if ap = 0 then g.pot else min ap g.pot)) ∧
        (∀ wi wk lk, 2 ≤ wi →
           settle_game g wi ap wk lk = TxResult.err GameErrorKind.InvalidPlayer) ∧
        (∀ wk lk, wk ≠ p1 →
           settle_game g 0 ap wk lk = TxResult.err GameErrorKind.InvalidPlayer) ∧
        (∀ lk, lk ≠ p2 →
           settle_game g 0 ap p1 lk = TxResult.err GameErrorKind.InvalidPlayer) ∧
        (∀ wk lk, wk ≠ p2 →
           settle_game g 1 ap wk lk = TxResult.err GameErrorKind.InvalidPlayer) ∧
        (∀ lk, lk ≠ p1 →
           settle_game g 1 ap p2 lk = TxResult.err GameErrorKind.InvalidPlayer)))
    ∧ (∀ (g : Game) (wi ap : Nat) (wk lk : Pubkey), g.phase = GamePhase.Settled →
        settle_game g wi ap wk lk = TxResult.err GameErrorKind.AlreadySettled)
    ∧ (∀ (g : Game) (wi ap : Nat) (wk lk : Pubkey), g.phase ≠ GamePhase.Settled →
        (g.player1 = none ∨ g.player2 = none) →
        settle_game g wi ap wk lk = TxResult.err GameErrorKind.MissingOpponent) := by
  have hcap : ∀ ap T : Nat, (if ap > 0 ∧ ap ≤ T then ap else T) =
      (if ap = 0 then T else min ap T) := by
    intro ap T
    rcases Nat.eq_zero_or_pos ap with h0 | h0
    · simp [h0]
    · by_cases hle : ap ≤ T
      · simp [h0, hle, Nat.min_eq_left hle, Nat.pos_iff_ne_zero.mp h0]
      · have := Nat.le_of_not_le hle
        simp [h0, hle, Nat.min_eq_right this, Nat.pos_iff_ne_zero.mp h0]
  refine ⟨fun g p1 p2 ap hp1 hp2 hph => ?_, fun g wi ap wk lk hph => ?_,
          fun g wi ap wk lk hph hmiss => ?_⟩
  · refine ⟨?_, ?_, fun wi wk lk hwi => ?_, fun wk lk hwk => ?_, fun lk hlk => ?_,
            fun wk lk hwk => ?_, fun lk hlk => ?_⟩
    · simp [settle_game, hph, hp1, hp2, hcap]
    · simp [settle_game, hph, hp1, hp2, hcap]
    · have h0 : wi ≠ 0 := by omega
      have h1 : wi ≠ 1 := by omega
      simp [settle_game, hph, hp1, hp2, h0, h1]
    · simp [settle_game, hph, hp1, hp2, hwk]
    · simp [settle_game, hph, hp1, hp2, hlk]
    · simp [settle_game, hph, hp1, hp2, hwk]
    · simp [settle_game, hph, hp1, hp2, hlk]
  · simp [settle_game, hph]
  · rcases hmiss with h | h <;> simp [settle_game, hph, h]

/-- Witness for C2, reproducing the spec scenario: direct settlement with
`actualPot = 0` on a 200-lamport hand pays the full 200 to the winner
and 0 to the loser. -/
theorem settle_game_spec_witness :
    settle_game showdown_game 0 0 10 20 =
      TxResult.ok
        ({ showdown_game with winner := GameResult.Winner 10,
                              phase := GamePhase.Settled, pot := 0 },
         200, 0) := by
  exact (settle_game_spec.1 showdown_game 10 20 0 rfl rfl (by decide)).1

/-- Observation for C3: the turn, dealer, phase, pot and second player
after `create_game` followed by `join_game`. -/
def c3_probe : Option (Nat × Nat × GamePhase × Nat × Option Pubkey) :=
  match join_game (create_game 7 100 10).1 20 with
  | TxResult.ok (g, _) => some (g.turn, g.dealer, g.phase, g.pot, g.player2)
  | _ => none

/-- C3 (code bug): `join_game` makes the caller player 2, adds the buy-in
to the pot and moves the phase to `PreFlop`, but it never writes `turn`:
after joining, `turn` is still 1, which `player_action` maps to player 1
— and `dealer = 0` marks player 1 as the dealer, so the dealer acts
first, contradicting the claimed small-blind-first convention and the
comment in `create_game` itself that player 2 acts first. -/
theorem join_game_turn_is_dealer :
    c3_probe = some (1, 0, GamePhase.PreFlop, 200, some 20) := by
  decide

/-- On a settled pool, an unclaimed bet on the winning outcome with a
non-empty winning side is paid `bet_payout` and marked claimed. -/
theorem claim_bet_winnings_ok (pool : BettingPool) (bet : Bet)
    (hs : pool.is_settled = true) (hc : bet.is_claimed = false)
    (hbp : bet.bet_on_player = pool.winning_player) (hw : winning_pool_of pool ≠ 0) :
    claim_bet_winnings pool bet =
      TxResult.ok ({ bet with is_claimed := true }, bet_payout pool bet.amount) := by
  simp [claim_bet_winnings, hs, hc, hbp, hw]

/-- Sum of two floors of divisions is at most the floor of the sum. -/
theorem div_add_div_le (a b W : Nat) (hW : 0 < W) : a / W + b / W ≤ (a + b) / W := by
  rw [Nat.le_div_iff_mul_le hW, Nat.add_mul]
  exact Nat.add_le_add (Nat.div_mul_le_self a W) (Nat.div_mul_le_self b W)

/-- Summed payouts are bounded by the payout of the summed stakes. -/
theorem sum_payout_le (pool : BettingPool) (l : List Nat)
    (hW : 0 < winning_pool_of pool) :
    (l.map fun a => bet_payout pool a).sum ≤
      l.sum * total_pool_of pool / winning_pool_of pool := by
  induction l with
  | nil => simp
  | cons a tl ih =>
    simp only [List.map_cons, List.sum_cons]
    calc bet_payout pool a + (tl.map fun a => bet_payout pool a).sum
        ≤ a * total_pool_of pool / winning_pool_of pool +
            tl.sum * total_pool_of pool / winning_pool_of pool :=
          Nat.add_le_add (Nat.mod_le _ _) ih
      _ ≤ (a * total_pool_of pool + tl.sum * total_pool_of pool) / winning_pool_of pool :=
          div_add_div_le _ _ _ hW
      _ = (a + tl.sum) * total_pool_of pool / winning_pool_of pool := by
          rw [Nat.add_mul]

/-- C5: on a settled pool, an unclaimed bet on the winning outcome is
paid exactly the truncated proportional share
`bet.amount * (totalPoolPlayer1 + totalPoolPlayer2) / winningPool`; the
u128 intermediate product of two u64 values cannot overflow, and with
the stake inside the winning pool and the total pool in u64 range the
final narrowing cast is lossless.  The call fails with `NotSettled`
before settlement, `AlreadyClaimed` for an already-claimed bet, and
`LostBet` for an unclaimed bet on the losing outcome. -/
theorem claim_bet_winnings_spec :
    (∀ (pool : BettingPool) (bet : Bet),
       pool.is_settled = true → bet.is_claimed = false →
       bet.bet_on_player = pool.winning_player →
       bet.amount ≤ winning_pool_of pool → 0 < winning_pool_of pool →
       total_pool_of pool < 2 ^ 64 →
       claim_bet_winnings pool bet =
         TxResult.ok ({ bet with is_claimed := true },
           bet.amount * total_pool_of pool / winning_pool_of pool))
    ∧ (∀ (pool : BettingPool) (bet : Bet), pool.is_settled = false →
        claim_bet_winnings pool bet = TxResult.err GameErrorKind.NotSettled)
    ∧ (∀ (pool : BettingPool) (bet : Bet), pool.is_settled = true → bet.is_claimed = true →
        claim_bet_winnings pool bet = TxResult.err GameErrorKind.AlreadyClaimed)
    ∧ (∀ (pool : BettingPool) (bet : Bet), pool.is_settled = true → bet.is_claimed = false →
        bet.bet_on_player ≠ pool.winning_player →
        claim_bet_winnings pool bet = TxResult.err GameErrorKind.LostBet) := by
  refine ⟨fun pool bet hs hc hbp hle hpos hrange => ?_, fun pool bet hs => ?_,
          fun pool bet hs hc => ?_, fun pool bet hs hc hbp => ?_⟩
  · rw [claim_bet_winnings_ok pool bet hs hc hbp (Nat.pos_iff_ne_zero.mp hpos)]
    have hq : bet.amount * total_pool_of pool / winning_pool_of pool ≤ total_pool_of pool := by
      calc bet.amount * total_pool_of pool / winning_pool_of pool
          ≤ winning_pool_of pool * total_pool_of pool / winning_pool_of pool :=
            Nat.div_le_div_right (Nat.mul_le_mul_right _ hle)
        _ = total_pool_of pool := Nat.mul_div_cancel_left _ hpos
    have : bet_payout pool bet.amount =
        bet.amount * total_pool_of pool / winning_pool_of pool :=
      Nat.mod_eq_of_lt (lt_of_le_of_lt hq hrange)
    rw [this]
  · simp [claim_bet_winnings, hs]
  · simp [claim_bet_winnings, hs, hc]
  · simp [claim_bet_winnings, hs, hc, hbp]

/-- Witness for C5, reproducing the spec scenario: pools 300 and 100,
winning player 1, a 60-lamport bet on player 1 claims 80. -/
theorem claim_bet_winnings_spec_witness :
    claim_bet_winnings
      { game_id := 3, total_pool_player1 := 300, total_pool_player2 := 100,
        total_bettors := 2, is_settled := true, winning_player := 1 }
      { game_id := 3, bettor := 99, bet_on_player := 1, amount := 60, is_claimed := false } =
      TxResult.ok
        ({ game_id := 3, bettor := 99, bet_on_player := 1, amount := 60, is_claimed := true },
         80) := by
  exact claim_bet_winnings_spec.1 _ _ rfl rfl rfl (by decide) (by decide) (by decide)

/-- C6: on a settled pool whose winning side is non-empty, the payouts of
all the winning-side bets (whose stakes are what the winning-side
aggregate was accumulated from) sum to at most the total pool:
truncation may leave a remainder undistributed, never over-distributed. -/
theorem claim_payouts_sum_le_total_pool (pool : BettingPool) (bets : List Bet)
    (hs : pool.is_settled = true)
    (hall : ∀ b ∈ bets, b.bet_on_player = pool.winning_player ∧ b.is_claimed = false)
    (hsum : (bets.map Bet.amount).sum = winning_pool_of pool)
    (hpos : 0 < winning_pool_of pool) :
    (bets.map fun b =>
       match claim_bet_winnings pool b with
       | TxResult.ok (_, amt) => amt
       | _ => 0).sum ≤ total_pool_of pool := by
  have hmap : (bets.map fun b =>
        match claim_bet_winnings pool b with
        | TxResult.ok (_, amt) => amt
        | _ => 0) =
      bets.map fun b => bet_payout pool b.amount := by
    apply List.map_congr_left
    intro b hb
    obtain ⟨h1, h2⟩ := hall b hb
    rw [claim_bet_winnings_ok pool b hs h2 h1 (Nat.pos_iff_ne_zero.mp hpos)]
  rw [hmap]
  have hcomp : (bets.map fun b => bet_payout pool b.amount) =
      (bets.map Bet.amount).map fun a => bet_payout pool a := by
    rw [List.map_map]
    rfl
  rw [hcomp]
  calc ((bets.map Bet.amount).map fun a => bet_payout pool a).sum
      ≤ (bets.map Bet.amount).sum * total_pool_of pool / winning_pool_of pool :=
        sum_payout_le pool _ hpos
    _ = total_pool_of pool := by rw [hsum]; exact Nat.mul_div_cancel_left _ hpos

/-- Witness for C6: winning side 300 made of stakes 100 and 200, total
pool 400; payouts 133 + 266 = 399 ≤ 400. -/
theorem claim_payouts_sum_le_total_pool_witness :
    (([{ game_id := 3, bettor := 1, bet_on_player := 1, amount := 100, is_claimed := false },
       { game_id := 3, bettor := 2, bet_on_player := 1, amount := 200, is_claimed := false }] :
        List Bet).map fun b =>
       match claim_bet_winnings
           { game_id := 3, total_pool_player1 := 300, total_pool_player2 := 100,
             total_bettors := 2, is_settled := true, winning_player := 1 } b with
       | TxResult.ok (_, amt) => amt
       | _ => 0).sum ≤
      total_pool_of
        { game_id := 3, total_pool_player1 := 300, total_pool_player2 := 100,
          total_bettors := 2, is_settled := true, winning_player := 1 } := by
  exact claim_payouts_sum_le_total_pool _ _ rfl (by decide) (by decide) (by decide)

/-- Observation for the C4 counterexample: pot versus summed player
contributions after create, join, a raise to 50 and an all-in. -/
def c4_probe : Option (Nat × Nat) :=
  match run_ops (create_world 1 100 10)
      [Op.join 20, Op.act 10 (Action.Raise 50), Op.act 20 Action.AllIn] with
  | TxResult.ok w => some (w.game.pot, w.hand1.total_bet + hand2_total w)
  | _ => none

/-- C4 counterexample: after create (buy-in 100), join, a raise to 50 by
player 1 and an all-in by player 2 — all valid, accepted actions — the
recorded pot is 200 while the `total_bet` fields of the players sum to 250:
`AllIn` forces `pot = buy_in * 2`, discarding the raise history. -/
theorem allin_breaks_pot_conservation : c4_probe = some (200, 250) := by
  decide

/-- The conservation invariant: the pot equals the summed cumulative
contributions of both players, and no second hand account exists before player 2 joins. -/
def PotInv (w : World) : Prop :=
  w.game.pot = w.hand1.total_bet + hand2_total w ∧
  (w.game.player2 = none → w.hand2 = none)

/-- A successful `join_game` adds the buy-in to the pot, records it as
the contribution of player 2, and only fires when player 2 was absent. -/
theorem join_game_money (g : Game) (p : Pubkey) (g1 : Game) (h2 : PlayerHand)
    (hok : join_game g p = TxResult.ok (g1, h2)) :
    g1.pot = g.pot + g.buy_in ∧ h2.total_bet = g.buy_in ∧ g1.player2 = some p ∧
    g.player2 = none ∧ g1.buy_in = g.buy_in := by
  unfold join_game at hok
  split at hok
  · cases hok
  · split at hok
    · cases hok
    · split at hok
      · cases hok
      · cases hok
        rename_i hsome _
        exact ⟨rfl, rfl, rfl, Option.not_isSome_iff_eq_none.mp hsome, rfl⟩

/-- A successful non-`AllIn` `player_action` moves the same amount into
the pot as into the `total_bet` of the actor, and touches neither player
identity. -/
theorem player_action_money (g : Game) (h : PlayerHand) (p : Pubkey) (a : Action)
    (hna : a ≠ Action.AllIn) (g1 : Game) (h1 : PlayerHand)
    (hok : player_action g h p a = TxResult.ok (g1, h1)) :
    g1.pot + h.total_bet = g.pot + h1.total_bet ∧ g1.player2 = g.player2 := by
  cases a with
  | AllIn => exact absurd rfl hna
  | Fold =>
    simp only [player_action] at hok
    cases hpn : player_num_of g p <;> rw [hpn] at hok
    · cases hok
    · repeat' split at hok
      all_goals cases hok
      all_goals dsimp only
      all_goals exact ⟨by omega, rfl⟩
  | Check =>
    simp only [player_action] at hok
    cases hpn : player_num_of g p <;> rw [hpn] at hok
    · cases hok
    · repeat' split at hok
      all_goals cases hok
      all_goals dsimp only
      all_goals exact ⟨by omega, rfl⟩
  | Call =>
    simp only [player_action] at hok
    cases hpn : player_num_of g p <;> rw [hpn] at hok
    · cases hok
    · repeat' split at hok
      all_goals cases hok
      all_goals dsimp only
      all_goals exact ⟨by omega, rfl⟩
  | Raise amount =>
    simp only [player_action] at hok
    cases hpn : player_num_of g p <;> rw [hpn] at hok
    · cases hok
    · repeat' split at hok
      all_goals cases hok
      all_goals dsimp only
      all_goals exact ⟨by omega, rfl⟩

/-- A successful `advance_phase` moves no funds and keeps both players. -/
theorem advance_phase_money (g g1 : Game) (hok : advance_phase g = TxResult.ok g1) :
    g1.pot = g.pot ∧ g1.player2 = g.player2 := by
  unfold advance_phase at hok
  split at hok <;> first | (cases hok; exact ⟨rfl, rfl⟩) | cases hok

/-- Every accepted non-`AllIn` operation preserves the conservation
invariant. -/
theorem exec_op_preserves (w w1 : World) (op : Op) (hna : op_no_allin op = true)
    (hInv : PotInv w) (hok : exec_op w op = TxResult.ok w1) : PotInv w1 := by
  obtain ⟨hpot, hnone⟩ := hInv
  cases op with
  | join p =>
    simp only [exec_op] at hok
    cases hj : join_game w.game p with
    | ok pr =>
      obtain ⟨g1, h2⟩ := pr
      rw [hj] at hok
      cases hok
      obtain ⟨e1, e2, e3, e4, _⟩ := join_game_money w.game p g1 h2 hj
      have hh2 : w.hand2 = none := hnone e4
      constructor
      · show g1.pot = w.hand1.total_bet + hand2_total ⟨g1, w.hand1, some h2⟩
        have ht : hand2_total ⟨g1, w.hand1, some h2⟩ = h2.total_bet := rfl
        have ht0 : hand2_total w = 0 := by rw [hand2_total, hh2]
        omega
      · intro habs
        rw [e3] at habs
        cases habs
    | err e => rw [hj] at hok; cases hok
    | panicked => rw [hj] at hok; cases hok
  | act p a =>
    have haa : a ≠ Action.AllIn := by
      intro hx
      subst hx
      simp [op_no_allin] at hna
    simp only [exec_op] at hok
    by_cases hp1 : w.game.player1 = some p
    · rw [if_pos hp1] at hok
      cases hact : player_action w.game w.hand1 p a with
      | ok pr =>
        obtain ⟨g1, h1⟩ := pr
        rw [hact] at hok
        cases hok
        obtain ⟨e1, e2⟩ := player_action_money w.game w.hand1 p a haa g1 h1 hact
        constructor
        · show g1.pot = h1.total_bet + hand2_total ⟨g1, h1, w.hand2⟩
          have ht : hand2_total ⟨g1, h1, w.hand2⟩ = hand2_total w := rfl
          omega
        · intro habs
          rw [e2] at habs
          exact hnone habs
      | err e => rw [hact] at hok; cases hok
      | panicked => rw [hact] at hok; cases hok
    · rw [if_neg hp1] at hok
      by_cases hp2 : w.game.player2 = some p
      · rw [if_pos hp2] at hok
        cases hh2 : w.hand2 with
        | none => rw [hh2] at hok; cases hok
        | some h2 =>
          rw [hh2] at hok
          replace hok :
              (match player_action w.game h2 p a with
               | TxResult.ok (g1, h2a) =>
                 TxResult.ok { game := g1, hand1 := w.hand1, hand2 := some h2a }
               | TxResult.err e => TxResult.err e
               | TxResult.panicked => TxResult.panicked) = TxResult.ok w1 := hok
          cases hact : player_action w.game h2 p a with
          | ok pr =>
            obtain ⟨g1, h2a⟩ := pr
            rw [hact] at hok
            cases hok
            obtain ⟨e1, e2⟩ := player_action_money w.game h2 p a haa g1 h2a hact
            constructor
            · show g1.pot = w.hand1.total_bet + hand2_total ⟨g1, w.hand1, some h2a⟩
              have ht : hand2_total ⟨g1, w.hand1, some h2a⟩ = h2a.total_bet := rfl
              have ht2 : hand2_total w = h2.total_bet := by rw [hand2_total, hh2]
              omega
            · intro habs
              rw [e2, hp2] at habs
              cases habs
          | err e => rw [hact] at hok; cases hok
          | panicked => rw [hact] at hok; cases hok
      · rw [if_neg hp2] at hok
        cases hok
  | advance =>
    simp only [exec_op] at hok
    cases hadv : advance_phase w.game with
    | ok g1 =>
      rw [hadv] at hok
      cases hok
      obtain ⟨e1, e2⟩ := advance_phase_money w.game g1 hadv
      constructor
      · show g1.pot = w.hand1.total_bet + hand2_total ⟨g1, w.hand1, w.hand2⟩
        have ht : hand2_total ⟨g1, w.hand1, w.hand2⟩ = hand2_total w := rfl
        omega
      · intro habs
        rw [e2] at habs
        exact hnone habs
    | err e => rw [hadv] at hok; cases hok
    | panicked => rw [hadv] at hok; cases hok

/-- Running any accepted `AllIn`-free operation sequence preserves the
conservation invariant. -/
theorem run_ops_preserves (ops : List Op) (w w1 : World) (hInv : PotInv w)
    (hna : ∀ op ∈ ops, op_no_allin op = true)
    (hrun : run_ops w ops = TxResult.ok w1) : PotInv w1 := by
  induction ops generalizing w with
  | nil =>
    unfold run_ops at hrun
    cases hrun
    exact hInv
  | cons op rest ih =>
    unfold run_ops at hrun
    cases hop : exec_op w op with
    | ok w2 =>
      rw [hop] at hrun
      exact ih w2 (exec_op_preserves w w2 op (hna op (by simp)) hInv hop)
        (fun o ho => hna o (by simp [ho])) hrun
    | err e => rw [hop] at hrun; cases hrun
    | panicked => rw [hop] at hrun; cases hrun

/-- C4 amended: for every sequence of accepted operations (join, player
actions, phase advancement) that contains no `AllIn`, starting from
`create_game`, the recorded pot equals the summed `total_bet` fields
of both players at every point before settlement; `AllIn` breaks the
equality by forcing `pot = buy_in * 2` (see the counterexample). -/
theorem pot_conservation_without_allin (gid buyIn p1 : Nat) (ops : List Op) (w1 : World)
    (hna : ∀ op ∈ ops, op_no_allin op = true)
    (hrun : run_ops (create_world gid buyIn p1) ops = TxResult.ok w1) :
    w1.game.pot = w1.hand1.total_bet + hand2_total w1 := by
  have hInv0 : PotInv (create_world gid buyIn p1) := by
    constructor
    · show buyIn = buyIn + hand2_total (create_world gid buyIn p1)
      have : hand2_total (create_world gid buyIn p1) = 0 := rfl
      omega
    · intro
      rfl
  exact (run_ops_preserves ops _ w1 hInv0 hna hrun).1

/-- The hand state after create (buy-in 100), join, raise to 50, call. -/
def c4_witness_world : World :=
  { game :=
      { game_id := 1, player1 := some 10, player2 := some 20, buy_in := 100, pot := 300,
        phase := GamePhase.PreFlop, community_cards := [0, 0, 0, 0, 0],
        community_card_count := 0, current_bet := 50, dealer := 0, turn := 1,
        winner := GameResult.NoWinner, deck_seed := 1 }
    hand1 :=
      { game_id := 1, player := 10, cards := [0, 0], has_folded := false, current_bet := 50,
        total_bet := 150, is_all_in := false }
    hand2 := some
      { game_id := 1, player := 20, cards := [0, 0], has_folded := false, current_bet := 50,
        total_bet := 150, is_all_in := false } }

/-- Witness for C4: the raise-and-call run reaches `c4_witness_world`,
where the pot of 300 equals 150 + 150. -/
theorem pot_conservation_without_allin_witness :
    c4_witness_world.game.pot =
      c4_witness_world.hand1.total_bet + hand2_total c4_witness_world :=
  pot_conservation_without_allin 1 100 10
    [Op.join 20, Op.act 10 (Action.Raise 50), Op.act 20 Action.Call]
    c4_witness_world (by decide) (by decide)

end Privatepoker
